import Mathlib

/-!
Verification of the cubeb-coreaudio-samples traversal tool.

This file shallowly embeds the property-accessor and object-walker core of
src/lib.rs (and the option assembly of src/bin/traversal.rs) in Lean 4.
The underlying macOS audio hardware service is external to the repository;
it is modelled as an oracle: record-of-functions structures whose fields
answer exactly the calls the Rust code makes (get-property-data-size,
get-property-data, string handles).  Machine integers are modelled as Nat
(u8, u32, usize) and Int (OSStatus, CFIndex); a Rust panic (assert!,
debug_assert!, unwrap, expect) is modelled as the value none of an Option
result, which propagates to the whole traversal, matching process abort.
-/

/-! ## Basic scalar types and SDK constants

AudioObjectID, AudioClassID and scope values are 32-bit codes from the
platform SDK (coreaudio-sys), modelled as Nat.  The class-id numeric values
are the SDK four-character codes; the only facts the development relies on
is that they are pairwise distinct and which codes appear in class_to_str.
-/

/-- OSStatus is a 32-bit signed status code; zero means success. -/
abbrev OSStatus := Int

/-- AudioObjectID is an opaque 32-bit object handle. -/
abbrev AudioObjectID := Nat

/-- AudioClassID is a 32-bit four-character class code. -/
abbrev AudioClassID := Nat

def kAudioObjectSystemObject : AudioObjectID := 1

def kAudioSystemObjectClassID : AudioClassID := 0x61737973
def kAudioAggregateDeviceClassID : AudioClassID := 0x61616767
def kAudioSubDeviceClassID : AudioClassID := 0x61737562
def kAudioSubTapClassID : AudioClassID := 0x73746170
def kAudioProcessClassID : AudioClassID := 0x636C6E74
def kAudioTapClassID : AudioClassID := 0x74636C73
def kAudioObjectClassIDWildcard : AudioClassID := 0x2A2A2A2A
def kAudioObjectClassID : AudioClassID := 0x616F626A
def kAudioPlugInClassID : AudioClassID := 0x61706C67
def kAudioTransportManagerClassID : AudioClassID := 0x7472706D
def kAudioBoxClassID : AudioClassID := 0x61626F78
def kAudioDeviceClassID : AudioClassID := 0x61646576
def kAudioClockDeviceClassID : AudioClassID := 0x61636C6B
def kAudioEndPointDeviceClassID : AudioClassID := 0x65646576
def kAudioEndPointClassID : AudioClassID := 0x656E6470
def kAudioStreamClassID : AudioClassID := 0x61737472
def kAudioControlClassID : AudioClassID := 0x6163746C
def kAudioSliderControlClassID : AudioClassID := 0x736C6472
def kAudioLevelControlClassID : AudioClassID := 0x6C65766C
def kAudioVolumeControlClassID : AudioClassID := 0x766C6D65
def kAudioLFEVolumeControlClassID : AudioClassID := 0x73756276
def kAudioBooleanControlClassID : AudioClassID := 0x746F676C
def kAudioMuteControlClassID : AudioClassID := 0x6D757465
def kAudioSoloControlClassID : AudioClassID := 0x736F6C6F
def kAudioJackControlClassID : AudioClassID := 0x6A61636B
def kAudioLFEMuteControlClassID : AudioClassID := 0x7375626D
def kAudioPhantomPowerControlClassID : AudioClassID := 0x7068616E
def kAudioPhaseInvertControlClassID : AudioClassID := 0x70687369
def kAudioClipLightControlClassID : AudioClassID := 0x636C6970
def kAudioTalkbackControlClassID : AudioClassID := 0x74616C62
def kAudioListenbackControlClassID : AudioClassID := 0x6C736E62
def kAudioSelectorControlClassID : AudioClassID := 0x736C6374
def kAudioDataSourceControlClassID : AudioClassID := 0x64737263
def kAudioDataDestinationControlClassID : AudioClassID := 0x64657374
def kAudioClockSourceControlClassID : AudioClassID := 0x636C636B
def kAudioLineLevelControlClassID : AudioClassID := 0x6E6C766C
def kAudioHighPassFilterControlClassID : AudioClassID := 0x68697066
def kAudioStereoPanControlClassID : AudioClassID := 0x7370616E
def kAudioISubOwnerControlClassID : AudioClassID := 0x61746368
def kAudioBootChimeVolumeControlClassID : AudioClassID := 0x7072616D

def kAudioObjectPropertyScopeGlobal : Nat := 0x676C6F62
def kAudioObjectPropertyScopeInput : Nat := 0x696E7074
def kAudioObjectPropertyScopeOutput : Nat := 0x6F757470
def kAudioObjectPropertyElementMaster : Nat := 0

/-- Property selectors used by the tool (from coreaudio-sys).  They are
modelled as an enumeration: the development only depends on selectors being
pairwise distinct keys into the service oracle, never on their numeric
four-character values. -/
inductive Selector where
  | kAudioObjectPropertyBaseClass
  | kAudioObjectPropertyClass
  | kAudioObjectPropertyOwner
  | kAudioObjectPropertyName
  | kAudioObjectPropertyModelName
  | kAudioObjectPropertyManufacturer
  | kAudioObjectPropertyElementName
  | kAudioObjectPropertyElementNumberName
  | kAudioObjectPropertyOwnedObjects
  | kAudioObjectPropertyControlList
  | kAudioDevicePropertyConfigurationApplication
  | kAudioDevicePropertyDeviceUID
  | kAudioDevicePropertyModelUID
  | kAudioDevicePropertyTransportType
  | kAudioDevicePropertyHogMode
  | kAudioDevicePropertyRelatedDevices
  | kAudioAggregateDevicePropertyActiveSubDeviceList
  | kAudioDevicePropertyClockDomain
  | kAudioDevicePropertyClockDevice
  | kAudioDevicePropertyDeviceIsAlive
  | kAudioDevicePropertyDeviceIsRunningSomewhere
  | kAudioDevicePropertyDeviceIsRunning
  | kAudioDevicePropertyDeviceCanBeDefaultDevice
  | kAudioDevicePropertyDeviceCanBeDefaultSystemDevice
  | kAudioDevicePropertyLatency
  | kAudioDevicePropertyStreams
  | kAudioDevicePropertySafetyOffset
  | kAudioDevicePropertyActualSampleRate
  | kAudioDevicePropertyNominalSampleRate
  | kAudioDevicePropertyAvailableNominalSampleRates
  | kAudioDevicePropertyBufferFrameSize
  | kAudioDevicePropertyBufferFrameSizeRange
  | kAudioDevicePropertyUsesVariableBufferFrameSizes
  | kAudioDevicePropertyPreferredChannelsForStereo
  | kAudioDevicePropertyPreferredChannelLayout
  | kAudioDevicePropertyIOCycleUsage
  | kAudioDevicePropertyProcessMute
  | kAudioAggregateDevicePropertyTapList
  | kAudioAggregateDevicePropertySubTapList
  | kAudioStreamPropertyIsActive
  | kAudioStreamPropertyDirection
  | kAudioStreamPropertyTerminalType
  | kAudioStreamPropertyStartingChannel
  | kAudioStreamPropertyLatency
  | kAudioStreamPropertyVirtualFormat
  | kAudioStreamPropertyAvailableVirtualFormats
  | kAudioStreamPropertyPhysicalFormat
  | kAudioStreamPropertyAvailablePhysicalFormats
  | kAudioProcessPropertyPID
  | kAudioProcessPropertyBundleID
  | kAudioProcessPropertyDevices
  | kAudioProcessPropertyIsRunning
  | kAudioProcessPropertyIsRunningInput
  | kAudioProcessPropertyIsRunningOutput
  | kAudioHardwarePropertyDevices
  | kAudioHardwarePropertyDefaultInputDevice
  | kAudioHardwarePropertyDefaultOutputDevice
  | kAudioHardwarePropertyDefaultSystemOutputDevice
  | kAudioHardwarePropertyMixStereoToMono
  | kAudioHardwarePropertyPlugInList
  | kAudioHardwarePropertyTransportManagerList
  | kAudioHardwarePropertyBoxList
  | kAudioHardwarePropertyClockDeviceList
  | kAudioHardwarePropertyProcessIsMain
  | kAudioHardwarePropertyIsInitingOrExiting
  | kAudioHardwarePropertyProcessInputMute
  | kAudioHardwarePropertyProcessIsAudible
  | kAudioHardwarePropertySleepingIsAllowed
  | kAudioHardwarePropertyUnloadingIsAllowed
  | kAudioHardwarePropertyHogModeIsAllowed
  | kAudioHardwarePropertyUserSessionIsActiveOrHeadless
  | kAudioHardwarePropertyPowerHint
  | kAudioHardwarePropertyProcessObjectList
  | kAudioHardwarePropertyTapList
deriving DecidableEq, Repr

/-- AudioObjectPropertyAddress: the (selector, scope, element) triple every
property read is keyed by (src/lib.rs repeatedly constructs it with
mElement = kAudioObjectPropertyElementMaster). -/
structure AudioObjectPropertyAddress where
  mSelector : Selector
  mScope : Nat
  mElement : Nat
deriving DecidableEq, Repr

/-! ## TraversalOptions (src/lib.rs lines 677-690)

The bitflags set of independent toggles, modelled as a record of Booleans,
one per declared flag bit. -/

structure TraversalOptions where
  includeBoxes : Bool
  includeClocks : Bool
  includeStreams : Bool
  includeFormats : Bool
  includeChannels : Bool
  includeControls : Bool
  includePlugins : Bool
  includeProcesses : Bool
  debug : Bool
deriving DecidableEq, Repr

/-- TraversalOptions::empty(): no flag set. -/
def TraversalOptions.empty : TraversalOptions :=
  ⟨false, false, false, false, false, false, false, false, false⟩

/-- TraversalOptions::all(): every declared flag set (bitflags all()). -/
def TraversalOptions.all : TraversalOptions :=
  ⟨true, true, true, true, true, true, true, true, true⟩

/-- opt.remove(TraversalOptions::DEBUG): clear the DEBUG bit, keep the rest. -/
def TraversalOptions.removeDebug (o : TraversalOptions) : TraversalOptions :=
  { o with debug := false }

/-- The include-all preset of src/bin/traversal.rs lines 146-149: on
--include-all the accumulated options are discarded, replaced by
TraversalOptions::all(), and then the DEBUG bit is removed. -/
def applyIncludeAll (_prev : TraversalOptions) : TraversalOptions :=
  TraversalOptions.all.removeDebug

/-- Parsed command-line flags of src/bin/traversal.rs (the subset that feeds
TraversalOptions). -/
structure Args where
  include_all : Bool
  include_boxes : Bool
  include_clocks : Bool
  include_streams : Bool
  include_formats : Bool
  include_channels : Bool
  include_controls : Bool
  include_plugins : Bool
  include_processes : Bool
  debug : Bool
deriving DecidableEq, Repr

/-- Option assembly of src/bin/traversal.rs main, lines 121-152: insert each
requested flag, then apply the include-all preset if requested, then insert
DEBUG if requested. -/
def argsToOptions (args : Args) : TraversalOptions :=
  let opt := TraversalOptions.empty
  let opt := if args.include_boxes then { opt with includeBoxes := true } else opt
  let opt := if args.include_clocks then { opt with includeClocks := true } else opt
  let opt := if args.include_streams then { opt with includeStreams := true } else opt
  let opt := if args.include_formats then { opt with includeFormats := true } else opt
  let opt := if args.include_channels then { opt with includeChannels := true } else opt
  let opt := if args.include_controls then { opt with includeControls := true } else opt
  let opt := if args.include_plugins then { opt with includePlugins := true } else opt
  let opt := if args.include_processes then { opt with includeProcesses := true } else opt
  let opt := if args.include_all then applyIncludeAll opt else opt
  let opt := if args.debug then { opt with debug := true } else opt
  opt

/-! ## List property accessor (src/lib.rs lines 205-233)

get_list_property_scoped first queries the total byte size of the property
(AudioObjectGetPropertyDataSize), then allocates a vector of
size / mem::size_of::<T>() default elements and fetches the data into it
with a single AudioObjectGetPropertyData call, passing the probed size
unchanged.  The service is the external audio HAL, modelled as an oracle:
getDataSize returns (status, byte size), getData returns (status, contents
written into the caller buffer, as a function from element index). -/

structure ListService (T : Type) where
  getDataSize : AudioObjectID → AudioObjectPropertyAddress → OSStatus × Nat
  getData : AudioObjectID → AudioObjectPropertyAddress → Nat → OSStatus × (Nat → T)

/-- Shallow embedding of get_list_property_scoped::<T>.  elemSize stands for
mem::size_of::<T>() (positive for every T the tool instantiates).  The
returned vector is the pre-allocated one: its length is the element count
computed from the probed byte size, regardless of what the service wrote. -/
def get_list_property_scoped (T : Type) (elemSize : Nat) (svc : ListService T)
    (obj : AudioObjectID) (selector : Selector) (scope : Nat) : Except OSStatus (List T) :=
  let address : AudioObjectPropertyAddress :=
    ⟨selector, scope, kAudioObjectPropertyElementMaster⟩
  let sres := svc.getDataSize obj address
  if sres.1 ≠ 0 then
    Except.error sres.1
  else
    let n := sres.2 / elemSize
    let dres := svc.getData obj address sres.2
    if dres.1 = 0 then
      Except.ok ((List.range n).map dres.2)
    else
      Except.error dres.1

/-- get_list_property: the global-scope wrapper (src/lib.rs lines 228-233). -/
def get_list_property (T : Type) (elemSize : Nat) (svc : ListService T)
    (obj : AudioObjectID) (selector : Selector) : Except OSStatus (List T) :=
  get_list_property_scoped T elemSize svc obj selector kAudioObjectPropertyScopeGlobal

/-- C2: the list reader propagates a failing size probe as that status code;
on a successful probe of N times the element size followed by a successful
data fetch it returns exactly N elements; a reported size of 0 yields the
empty list, not an error. -/
theorem list_read_two_step (T : Type) (elemSize : Nat) (svc : ListService T)
    (obj : AudioObjectID) (selector : Selector) (scope : Nat) (st : OSStatus) (s N : Nat) :
    (svc.getDataSize obj ⟨selector, scope, kAudioObjectPropertyElementMaster⟩ = (st, s) →
      st ≠ 0 →
      get_list_property_scoped T elemSize svc obj selector scope = Except.error st) ∧
    (0 < elemSize →
      svc.getDataSize obj ⟨selector, scope, kAudioObjectPropertyElementMaster⟩ = (0, N * elemSize) →
      (svc.getData obj ⟨selector, scope, kAudioObjectPropertyElementMaster⟩ (N * elemSize)).1 = 0 →
      ∃ l, get_list_property_scoped T elemSize svc obj selector scope = Except.ok l ∧
        l.length = N) ∧
    (svc.getDataSize obj ⟨selector, scope, kAudioObjectPropertyElementMaster⟩ = (0, 0) →
      (svc.getData obj ⟨selector, scope, kAudioObjectPropertyElementMaster⟩ 0).1 = 0 →
      get_list_property_scoped T elemSize svc obj selector scope = Except.ok []) := by
  refine ⟨?_, ?_, ?_⟩
  · intro hsize hst
    simp only [get_list_property_scoped, hsize]
    simp [hst]
  · intro hpos hsize hdata
    refine ⟨(List.range (N * elemSize / elemSize)).map
      (svc.getData obj ⟨selector, scope, kAudioObjectPropertyElementMaster⟩ (N * elemSize)).2, ?_, ?_⟩
    · simp only [get_list_property_scoped, hsize]
      simp [hdata]
    · simp [Nat.mul_div_cancel _ hpos]
  · intro hsize hdata
    simp only [get_list_property_scoped, hsize]
    simp [hdata]

/-- Concrete instantiation of list_read_two_step: a service reporting 8 bytes
for 4-byte elements yields a 2-element list; one reporting 0 bytes yields
the empty list. -/
theorem list_read_two_step_witness :
    (∃ l, get_list_property_scoped Nat 4
        ⟨fun _ _ => (0, 8), fun _ _ _ => (0, fun i => i)⟩ 1
        Selector.kAudioHardwarePropertyDevices kAudioObjectPropertyScopeGlobal =
        Except.ok l ∧ l.length = 2) ∧
    get_list_property_scoped Nat 4
        ⟨fun _ _ => (0, 0), fun _ _ _ => (0, fun i => i)⟩ 1
        Selector.kAudioHardwarePropertyDevices kAudioObjectPropertyScopeGlobal =
        Except.ok [] := by
  constructor
  · exact (list_read_two_step Nat 4 ⟨fun _ _ => (0, 8), fun _ _ _ => (0, fun i => i)⟩ 1
      Selector.kAudioHardwarePropertyDevices kAudioObjectPropertyScopeGlobal 0 8 2).2.1
      (by decide) rfl rfl
  · exact (list_read_two_step Nat 4 ⟨fun _ _ => (0, 0), fun _ _ _ => (0, fun i => i)⟩ 1
      Selector.kAudioHardwarePropertyDevices kAudioObjectPropertyScopeGlobal 0 0 0).2.2
      rfl rfl

/-- C10: with a probed byte size s and element size e, the element count is
the integer floor s / e, and the single data-fetch call receives the
unmodified probed size s. -/
theorem list_read_floor_division (T : Type) (elemSize : Nat) (svc : ListService T)
    (obj : AudioObjectID) (selector : Selector) (scope : Nat) (s : Nat) (f : Nat → T) :
    0 < elemSize →
    svc.getDataSize obj ⟨selector, scope, kAudioObjectPropertyElementMaster⟩ = (0, s) →
    svc.getData obj ⟨selector, scope, kAudioObjectPropertyElementMaster⟩ s = (0, f) →
    get_list_property_scoped T elemSize svc obj selector scope =
      Except.ok ((List.range (s / elemSize)).map f) ∧
    ((List.range (s / elemSize)).map f).length = s / elemSize := by
  intro _ hsize hdata
  constructor
  · simp only [get_list_property_scoped, hsize, hdata]
    simp
  · simp

/-- Concrete instantiation of list_read_floor_division: 7 probed bytes with
4-byte elements yield exactly one element (the trailing 3 bytes are
dropped), and the fetch is made at size 7. -/
theorem list_read_floor_division_witness :
    get_list_property_scoped Nat 4
      ⟨fun _ _ => (0, 7), fun _ _ _ => (0, fun i => i + 10)⟩ 1
      Selector.kAudioDevicePropertyStreams kAudioObjectPropertyScopeInput =
      Except.ok [10] := by
  have h := list_read_floor_division Nat 4
    ⟨fun _ _ => (0, 7), fun _ _ _ => (0, fun i => i + 10)⟩ 1
    Selector.kAudioDevicePropertyStreams kAudioObjectPropertyScopeInput 7 (fun i => i + 10)
    (by decide) rfl rfl
  simpa using h.1

/-! ## Text property accessor (src/lib.rs lines 41-103 and 235-248)

utf8_from_cfstringref decodes a CFStringRef handle: it reads the character
length with CFStringGetLength, returns an empty vector when that length is
exactly 0, otherwise probes the needed UTF-8 byte size with a first
CFStringGetBytes call (asserting the probe converted something and reported
a positive size), allocates a zeroed buffer of exactly that size and fills
it with a second CFStringGetBytes call (asserting it converted something).
The CoreFoundation string handle is modelled as an oracle: its character
length, the (convertedChars, size) answer of the probing call, and, for a
given buffer capacity, the (convertedChars, bytes written) answer of the
filling call.  Rust assert! failures are the value none. -/

structure CFStringModel where
  length : Int
  probe : Int × Int
  convert : Int → Int × List Nat

/-- Shallow embedding of utf8_from_cfstringref.  The result models the Vec
of UTF-8 bytes; the buffer keeps the allocated size: bytes the service did
not overwrite stay zero. -/
def utf8_from_cfstringref (s : CFStringModel) : Option (List Nat) :=
  if s.length = 0 then
    some []
  else
    let converted_chars := s.probe.1
    let size := s.probe.2
    if converted_chars > 0 ∧ size > 0 then
      let filled := s.convert size
      if filled.1 > 0 then
        some ((filled.2.take size.toNat) ++
          List.replicate (size.toNat - (filled.2.take size.toNat).length) 0)
      else
        none
    else
      none

/-- Oracle for the string-property fetch of get_string_property: status code
plus the CFStringRef handle the service wrote. -/
structure StringService where
  fetch : AudioObjectID → AudioObjectPropertyAddress → OSStatus × CFStringModel

/-- Shallow embedding of get_string_property (src/lib.rs lines 235-248): a
global-scope scalar read of a CFStringRef followed by full decoding.  The
String::from_utf8 expect of the Display impl is not modelled separately;
the result carries the decoded UTF-8 byte vector. -/
def get_string_property (svc : StringService) (obj : AudioObjectID)
    (selector : Selector) : Option (Except OSStatus (List Nat)) :=
  let address : AudioObjectPropertyAddress :=
    ⟨selector, kAudioObjectPropertyScopeGlobal, kAudioObjectPropertyElementMaster⟩
  let r := svc.fetch obj address
  if r.1 = 0 then
    match utf8_from_cfstringref r.2 with
    | none => none
    | some bytes => some (Except.ok bytes)
  else
    some (Except.error r.1)

/-- C7 counterexample: the claim says a zero or negative character length is
treated as an empty property.  The code only special-cases length equal to
0: at length -1 it proceeds to the probing call, whose conversion
assertion fails for a service that converts nothing, so the accessor
panics instead of returning the empty string. -/
theorem string_read_negative_length_counterexample :
    get_string_property ⟨fun _ _ => (0, ⟨-1, (0, 0), fun _ => (0, [])⟩)⟩ 1
      Selector.kAudioObjectPropertyName = none ∧
    (none : Option (Except OSStatus (List Nat))) ≠ some (Except.ok []) := by
  constructor
  · rfl
  · intro h
    exact Option.noConfusion h

/-- C7 (amended): a service-level failure is propagated as that status; a
zero character length yields the empty string; a positive character length
with a successful probe and conversion yields a buffer of exactly the
probed UTF-8 byte size.  (Negative lengths are not treated as empty: see
the counterexample.) -/
theorem string_read_exact_buffer (svc : StringService) (obj : AudioObjectID)
    (selector : Selector) (st : OSStatus) (s : CFStringModel)
    (hfetch : svc.fetch obj
      ⟨selector, kAudioObjectPropertyScopeGlobal, kAudioObjectPropertyElementMaster⟩ = (st, s)) :
    (st ≠ 0 → get_string_property svc obj selector = some (Except.error st)) ∧
    (st = 0 → s.length = 0 → get_string_property svc obj selector = some (Except.ok [])) ∧
    (st = 0 → s.length ≠ 0 → 0 < s.probe.1 → 0 < s.probe.2 → 0 < (s.convert s.probe.2).1 →
      ∃ buf, get_string_property svc obj selector = some (Except.ok buf) ∧
        buf.length = s.probe.2.toNat) := by
  refine ⟨?_, ?_, ?_⟩
  · intro hst
    simp only [get_string_property, hfetch]
    simp [hst]
  · intro hst hlen
    simp only [get_string_property, hfetch, hst]
    simp [utf8_from_cfstringref, hlen]
  · intro hst hlen hc hs hc2
    have h12 : s.probe.1 > 0 ∧ s.probe.2 > 0 := ⟨hc, hs⟩
    simp only [get_string_property, hfetch, hst]
    simp only [utf8_from_cfstringref, if_neg hlen, if_pos h12, if_pos hc2]
    refine ⟨_, rfl, ?_⟩
    simp [List.length_take]

/-- Concrete instantiation of string_read_exact_buffer: a 2-character handle
whose probe reports 3 UTF-8 bytes yields a 3-byte string. -/
theorem string_read_exact_buffer_witness :
    ∃ buf, get_string_property ⟨fun _ _ => (0, ⟨2, (2, 3), fun _ => (2, [104, 105, 106])⟩)⟩ 1
      Selector.kAudioObjectPropertyName = some (Except.ok buf) ∧ buf.length = 3 := by
  have h := (string_read_exact_buffer ⟨fun _ _ => (0, ⟨2, (2, 3), fun _ => (2, [104, 105, 106])⟩)⟩
    1 Selector.kAudioObjectPropertyName 0 ⟨2, (2, 3), fun _ => (2, [104, 105, 106])⟩ rfl).2.2
    rfl (by decide) (by decide) (by decide) (by decide)
  simpa using h

/-! ## Class-code rendering (src/lib.rs lines 250-311)

class_to_str maps the known SDK class codes to their names; add_class_id
prints a leaf for a class lookup result: the error itself on failure, the
table name for a known code, and otherwise a CString built from the four
big-endian bytes of the code.  CString::new fails (and the unwrap panics)
whenever one of those bytes is zero. -/

def class_to_str (obj : AudioClassID) : Option String :=
  if obj = kAudioSystemObjectClassID then some "AudioSystemObject"
  else if obj = kAudioAggregateDeviceClassID then some "AudioAggregateDevice"
  else if obj = kAudioSubDeviceClassID then some "AudioSubDevice"
  else if obj = kAudioSubTapClassID then some "AudioSubTap"
  else if obj = kAudioProcessClassID then some "AudioProcess"
  else if obj = kAudioTapClassID then some "AudioTap"
  else if obj = kAudioObjectClassIDWildcard then some "AudioObjectClassIDWildcard"
  else if obj = kAudioObjectClassID then some "AudioObject"
  else if obj = kAudioPlugInClassID then some "AudioPlugIn"
  else if obj = kAudioTransportManagerClassID then some "AudioTransportManager"
  else if obj = kAudioBoxClassID then some "AudioBox"
  else if obj = kAudioDeviceClassID then some "AudioDevice"
  else if obj = kAudioClockDeviceClassID then some "AudioClockDevice"
  else if obj = kAudioEndPointDeviceClassID then some "AudioEndPointDevice"
  else if obj = kAudioEndPointClassID then some "AudioEndPoint"
  else if obj = kAudioStreamClassID then some "AudioStream"
  else if obj = kAudioControlClassID then some "AudioControl"
  else if obj = kAudioSliderControlClassID then some "AudioSliderControl"
  else if obj = kAudioLevelControlClassID then some "AudioLevelControl"
  else if obj = kAudioVolumeControlClassID then some "AudioVolumeControl"
  else if obj = kAudioLFEVolumeControlClassID then some "AudioLFEVolumeControl"
  else if obj = kAudioBooleanControlClassID then some "AudioBooleanControl"
  else if obj = kAudioMuteControlClassID then some "AudioMuteControl"
  else if obj = kAudioSoloControlClassID then some "AudioSoloControl"
  else if obj = kAudioJackControlClassID then some "AudioJackControl"
  else if obj = kAudioLFEMuteControlClassID then some "AudioLFEMuteControl"
  else if obj = kAudioPhantomPowerControlClassID then some "AudioPhantomPowerControl"
  else if obj = kAudioPhaseInvertControlClassID then some "AudioPhaseInvertControl"
  else if obj = kAudioClipLightControlClassID then some "AudioClipLightControl"
  else if obj = kAudioTalkbackControlClassID then some "AudioTalkbackControl"
  else if obj = kAudioListenbackControlClassID then some "AudioListenbackControl"
  else if obj = kAudioSelectorControlClassID then some "AudioSelectorControl"
  else if obj = kAudioDataSourceControlClassID then some "AudioDataSourceControl"
  else if obj = kAudioDataDestinationControlClassID then some "AudioDataDestinationControl"
  else if obj = kAudioClockSourceControlClassID then some "AudioClockSourceControl"
  else if obj = kAudioLineLevelControlClassID then some "AudioLineLevelControl"
  else if obj = kAudioHighPassFilterControlClassID then some "AudioHighPassFilterControl"
  else if obj = kAudioStereoPanControlClassID then some "AudioStereoPanControl"
  else if obj = kAudioISubOwnerControlClassID then some "AudioISubOwnerControl"
  else if obj = kAudioBootChimeVolumeControlClassID then some "AudioBootChimeVolumeControl"
  else none

/-- u32::to_be_bytes: the four big-endian bytes of a 32-bit code. -/
def to_be_bytes (n : Nat) : List Nat :=
  [n / 16777216 % 256, n / 65536 % 256, n / 256 % 256, n % 256]

/-- CString::new: fails (NulError) when the byte vector contains a zero
byte; otherwise keeps the bytes. -/
def cstring_new (bytes : List Nat) : Option (List Nat) :=
  if 0 ∈ bytes then none else some bytes

/-- The characters of a four-character tag (how the CString renders). -/
def fourcc_string (bytes : List Nat) : String :=
  String.mk (bytes.map Char.ofNat)

/-- Debug-style quoting used by the Rust formatter for strings. -/
def quoted (s : String) : String := "\"" ++ s ++ "\""

/-- One node of the report tree built through debug_tree: a branch with an
ordered list of children, or a leaf of text. -/
inductive ReportTree where
  | branch : String → List ReportTree → ReportTree
  | leaf : String → ReportTree

/-- Shallow embedding of add_class_id (src/lib.rs lines 300-311): a leaf for
the class-lookup result, or none when the CString unwrap panics on a
zero byte of an unknown code. -/
def add_class_id (identifier : String) (id : Except OSStatus AudioClassID) : Option ReportTree :=
  match id with
  | Except.error e => some (ReportTree.leaf (identifier ++ ": Err(" ++ toString e ++ ")"))
  | Except.ok c =>
    match class_to_str c with
    | some s => some (ReportTree.leaf (identifier ++ " (Known): " ++ quoted s))
    | none =>
      match cstring_new (to_be_bytes c) with
      | none => none
      | some bs => some (ReportTree.leaf (identifier ++ " (FourCC): " ++ quoted (fourcc_string bs)))

/-- C8 counterexample: the claim says rendering succeeds for every unknown
code.  The code 0 is not in the table, its big-endian bytes are all zero,
so CString::new fails and the unwrap panics: no leaf is rendered. -/
theorem class_rendering_counterexample :
    class_to_str 0 = none ∧ add_class_id "Class" (Except.ok 0) = none := by
  constructor
  · rfl
  · rfl

/-- C8 (amended): a known code is reported with its table name; an unknown
code whose four big-endian bytes are all nonzero is reported as the raw
four-character tag; an unknown code containing a zero byte panics the
CString unwrap instead of rendering. -/
theorem class_rendering (identifier : String) (c : AudioClassID) :
    (∀ s, class_to_str c = some s →
      add_class_id identifier (Except.ok c) =
        some (ReportTree.leaf (identifier ++ " (Known): " ++ quoted s))) ∧
    (class_to_str c = none → 0 ∉ to_be_bytes c →
      add_class_id identifier (Except.ok c) =
        some (ReportTree.leaf (identifier ++ " (FourCC): " ++ quoted (fourcc_string (to_be_bytes c))))) ∧
    (class_to_str c = none → 0 ∈ to_be_bytes c →
      add_class_id identifier (Except.ok c) = none) := by
  refine ⟨?_, ?_, ?_⟩
  · intro s hs
    simp [add_class_id, hs]
  · intro hnone hzero
    simp [add_class_id, hnone, cstring_new, hzero]
  · intro hnone hzero
    simp [add_class_id, hnone, cstring_new, hzero]

/-- Concrete instantiation of class_rendering: the box class code renders
with its table name, and the unknown code 0x62626262 renders as a
four-character tag. -/
theorem class_rendering_witness :
    add_class_id "Class" (Except.ok kAudioBoxClassID) =
      some (ReportTree.leaf ("Class" ++ " (Known): " ++ quoted "AudioBox")) ∧
    add_class_id "Class" (Except.ok 0x62626262) =
      some (ReportTree.leaf ("Class" ++ " (FourCC): " ++
        quoted (fourcc_string (to_be_bytes 0x62626262)))) := by
  constructor
  · exact (class_rendering "Class" kAudioBoxClassID).1 "AudioBox" (by decide)
  · exact (class_rendering "Class" 0x62626262).2.1 (by decide) (by decide)

/-! ## Channel-layout expansion (src/lib.rs lines 417-452)

expand_channel_layout reinterprets a raw byte buffer as an
AudioChannelLayout followed by trailing AudioChannelDescription records.
On macOS, size_of::<AudioChannelDescription>() = 20 (two u32 fields and
three f32 coordinates) and size_of::<AudioChannelLayout>() = 32 (three u32
header fields plus one inline description), so acl_base_len = 12.  The
function asserts the buffer holds at least the header base, derives the
record count from the byte length, and debug-asserts the count declared in
the header (u32 at byte offset 8, little-endian) matches; the descriptions
are then read as consecutive 20-byte records.  Both assertions are
modelled as active (a failure is the value none).  The f32 coordinates are
kept as raw little-endian 32-bit patterns. -/

def acd_len : Nat := 20
def acl_len : Nat := 32
def acl_base_len : Nat := acl_len - acd_len

/-- Little-endian u32 read from the first four bytes of a byte list. -/
def u32le (bytes : List Nat) : Nat :=
  match bytes with
  | b0 :: b1 :: b2 :: b3 :: _ => b0 + 256 * b1 + 65536 * b2 + 16777216 * b3
  | _ => 0

structure AudioChannelDescription where
  mChannelLabel : Nat
  mChannelFlags : Nat
  mCoordinates : List Nat
deriving DecidableEq, Repr

structure AudioChannelLayout_ExpandedChannels where
  mChannelLayoutTag : Nat
  mChannelBitmap : Nat
  mNumberChannelDescriptions : Nat
  mChannelDescriptions : List AudioChannelDescription
deriving DecidableEq, Repr

/-- One AudioChannelDescription record from a 20-byte chunk. -/
def parseDesc (bytes : List Nat) : AudioChannelDescription :=
  ⟨u32le bytes, u32le (bytes.drop 4),
    [u32le (bytes.drop 8), u32le (bytes.drop 12), u32le (bytes.drop 16)]⟩

/-- n consecutive AudioChannelDescription records. -/
def parseDescs : Nat → List Nat → List AudioChannelDescription
  | 0, _ => []
  | n + 1, bytes => parseDesc bytes :: parseDescs n (bytes.drop acd_len)

/-- Shallow embedding of expand_channel_layout. -/
def expand_channel_layout (data : List Nat) : Option AudioChannelLayout_ExpandedChannels :=
  if acl_base_len ≤ data.length then
    let num_channels := (data.length - acl_base_len) / acd_len
    let declared := u32le (data.drop 8)
    if declared = num_channels then
      some ⟨u32le data, u32le (data.drop 4), declared,
        parseDescs num_channels (data.drop acl_base_len)⟩
    else
      none
  else
    none

theorem parseDescs_length (n : Nat) (bytes : List Nat) : (parseDescs n bytes).length = n := by
  induction n generalizing bytes with
  | zero => rfl
  | succ m ih => simp [parseDescs, ih]

/-- C3: for a buffer of header-base plus k description records, a successful
expansion carries exactly k trailing descriptions and reports the declared
count k; the expansion succeeds exactly when the count declared in the
header equals k (the count implied by the buffer length). -/
theorem channel_layout_expansion (k : Nat) (data : List Nat)
    (hlen : data.length = acl_base_len + acd_len * k) :
    (∀ res, expand_channel_layout data = some res →
      res.mChannelDescriptions.length = k ∧ res.mNumberChannelDescriptions = k) ∧
    (u32le (data.drop 8) = k → ∃ res, expand_channel_layout data = some res) ∧
    (u32le (data.drop 8) ≠ k → expand_channel_layout data = none) := by
  have hbase : acl_base_len ≤ data.length := by
    rw [hlen]; exact Nat.le_add_right _ _
  have hnum : (data.length - acl_base_len) / acd_len = k := by
    rw [hlen, Nat.add_sub_cancel_left, Nat.mul_div_cancel_left _ (by decide : 0 < acd_len)]
  refine ⟨?_, ?_, ?_⟩
  · intro res hres
    simp only [expand_channel_layout, if_pos hbase, hnum] at hres
    by_cases hdecl : u32le (data.drop 8) = k
    · rw [if_pos hdecl] at hres
      cases hres
      exact ⟨parseDescs_length _ _, hdecl⟩
    · rw [if_neg hdecl] at hres
      exact absurd hres (by simp)
  · intro hdecl
    exact ⟨⟨u32le data, u32le (data.drop 4), u32le (data.drop 8),
      parseDescs ((data.length - acl_base_len) / acd_len) (data.drop acl_base_len)⟩,
      by simp only [expand_channel_layout, if_pos hbase, hnum, if_pos hdecl]⟩
  · intro hdecl
    simp only [expand_channel_layout, if_pos hbase, hnum, if_neg hdecl]

/-- Concrete instantiation of channel_layout_expansion: a 32-byte buffer
declaring one channel expands to one description; the same buffer
declaring two channels fails the count assertion. -/
theorem channel_layout_expansion_witness :
    (∃ res, expand_channel_layout
      ([0, 0, 0, 0, 0, 0, 0, 0, 1, 0, 0, 0] ++ List.replicate 20 0) = some res) ∧
    expand_channel_layout
      ([0, 0, 0, 0, 0, 0, 0, 0, 2, 0, 0, 0] ++ List.replicate 20 0) = none := by
  constructor
  · exact (channel_layout_expansion 1
      ([0, 0, 0, 0, 0, 0, 0, 0, 1, 0, 0, 0] ++ List.replicate 20 0) (by decide)).2.1 (by decide)
  · exact (channel_layout_expansion 1
      ([0, 0, 0, 0, 0, 0, 0, 0, 2, 0, 0, 0] ++ List.replicate 20 0) (by decide)).2.2 (by decide)

/-! ## The object walker (src/lib.rs lines 313-675)

The walker reads three kinds of data from the audio service:

- class lookups: get_property::<AudioClassID> on the BaseClass and Class
  selectors, modelled by the classProp oracle;
- the per-property reads issued by the prop! macro: each call site fetches
  one (selector, scope) key on one object and renders the (possibly
  mapped) value with the Debug formatter.  The decoded rendering is
  modelled by the fetch oracle returning either the rendered text or the
  failing status.  The map and pretty-print details of prop! are absorbed
  into that oracle, except for the preferred-channel-layout property,
  whose Vec<u8> fetch and expand_channel_layout map are modelled at the
  byte level (its map can panic);
- the raw byte reads of get_list_property_scoped::<u8> used for the
  preferred channel layout, modelled by the bytes ListService oracle;
- the OwnedObjects child list: modelled by the ObjGraph value the walker
  is run on: each node carries the answer the service gives for that
  object, either a failing status (treated as no children) or the child
  subgraphs in service order.
-/

structure HalService where
  classProp : AudioObjectID → Selector → Except OSStatus AudioClassID
  fetch : AudioObjectID → Selector → Nat → Except OSStatus String
  bytes : ListService Nat

/-- The object graph as answered by the OwnedObjects queries: a node is an
object id together with either the failing status of its OwnedObjects read
or its children. -/
inductive ObjGraph where
  | node : AudioObjectID → Option OSStatus → List ObjGraph → ObjGraph

/-- Result::is_ok_and. -/
def isOkAnd (r : Except OSStatus AudioClassID) (p : AudioClassID → Bool) : Bool :=
  match r with
  | Except.ok v => p v
  | Except.error _ => false

/-- The six control base classes filtered by traverse_obj (lines 600-607). -/
def controlBaseClasses : List AudioClassID :=
  [kAudioControlClassID, kAudioSliderControlClassID, kAudioLevelControlClassID,
    kAudioBooleanControlClassID, kAudioSelectorControlClassID, kAudioStereoPanControlClassID]

/-- Debug rendering of a prop! fetch result, as the Rust Debug formatter
prints a Result: Ok(value) or Err(status). -/
def reprResultStr (r : Except OSStatus String) : String :=
  match r with
  | Except.ok p => "Ok(" ++ p ++ ")"
  | Except.error e => "Err(" ++ toString e ++ ")"

/-- The leaf-emission policy of the prop! macro (src/lib.rs lines 320-329):
with DEBUG set the whole Result is printed; otherwise only a successful
value is printed and a failure emits nothing. -/
def propItems (opt : TraversalOptions) (name : String) (r : Except OSStatus String) :
    List ReportTree :=
  if opt.debug then
    [ReportTree.leaf (name ++ ": " ++ reprResultStr r)]
  else
    match r with
    | Except.ok p => [ReportTree.leaf (name ++ ": " ++ p)]
    | Except.error _ => []

/-- Rendering of one expanded channel description (Debug-style; the exact
formatter layout is abstracted). -/
def renderDesc (d : AudioChannelDescription) : String :=
  "AudioChannelDescription(" ++ toString d.mChannelLabel ++ ", " ++
    toString d.mChannelFlags ++ ", " ++ toString d.mCoordinates ++ ")"

/-- Rendering of an expanded channel layout (Debug-style; the exact
formatter layout is abstracted). -/
def renderExpanded (e : AudioChannelLayout_ExpandedChannels) : String :=
  "AudioChannelLayout_ExpandedChannels(" ++ toString e.mChannelLayoutTag ++ ", " ++
    toString e.mChannelBitmap ++ ", " ++ toString e.mNumberChannelDescriptions ++ ", [" ++
    String.intercalate ", " (e.mChannelDescriptions.map renderDesc) ++ "])"

/-- The common object properties printed for every reported object
(src/lib.rs lines 641-647). -/
def commonProps (svc : HalService) (obj : AudioObjectID) (opt : TraversalOptions) :
    List ReportTree :=
  propItems opt "Owner" (svc.fetch obj Selector.kAudioObjectPropertyOwner
    kAudioObjectPropertyScopeGlobal) ++
  propItems opt "Name" (svc.fetch obj Selector.kAudioObjectPropertyName
    kAudioObjectPropertyScopeGlobal) ++
  propItems opt "ModelName" (svc.fetch obj Selector.kAudioObjectPropertyModelName
    kAudioObjectPropertyScopeGlobal) ++
  propItems opt "Manufacturer" (svc.fetch obj Selector.kAudioObjectPropertyManufacturer
    kAudioObjectPropertyScopeGlobal) ++
  propItems opt "ElementName" (svc.fetch obj Selector.kAudioObjectPropertyElementName
    kAudioObjectPropertyScopeGlobal) ++
  propItems opt "ElementNumberName" (svc.fetch obj Selector.kAudioObjectPropertyElementNumberName
    kAudioObjectPropertyScopeGlobal) ++
  propItems opt "DeviceUID" (svc.fetch obj Selector.kAudioDevicePropertyDeviceUID
    kAudioObjectPropertyScopeGlobal)

/-- traverse_aggregate_device (src/lib.rs lines 388-391). -/
def traverse_aggregate_device (svc : HalService) (obj : AudioObjectID)
    (opt : TraversalOptions) : List ReportTree :=
  propItems opt "TapList" (svc.fetch obj Selector.kAudioAggregateDevicePropertyTapList
    kAudioObjectPropertyScopeGlobal) ++
  propItems opt "SubTapList" (svc.fetch obj Selector.kAudioAggregateDevicePropertySubTapList
    kAudioObjectPropertyScopeGlobal)

/-- The preferred-channel-layout property line of traverse_device
(src/lib.rs lines 493-503): a Vec<u8> list read in the output scope mapped
through expand_channel_layout.  The map runs on a successful fetch before
the leaf-emission policy, so a failing expansion panics (none). -/
def channel_layout_items (svc : HalService) (obj : AudioObjectID)
    (opt : TraversalOptions) : Option (List ReportTree) :=
  match get_list_property_scoped Nat 1 svc.bytes obj
      Selector.kAudioDevicePropertyPreferredChannelLayout kAudioObjectPropertyScopeOutput with
  | Except.error e =>
    some (propItems opt "Output PreferredChannelLayout" (Except.error e))
  | Except.ok data =>
    match expand_channel_layout data with
    | none => none
    | some ex =>
      some (propItems opt "Output PreferredChannelLayout" (Except.ok (renderExpanded ex)))

/-- The device properties printed before the channel-layout line of
traverse_device (src/lib.rs lines 455-492). -/
def devicePropsPre (svc : HalService) (obj : AudioObjectID) (opt : TraversalOptions) :
    List ReportTree :=
  propItems opt "ConfigurationApplication"
      (svc.fetch obj Selector.kAudioDevicePropertyConfigurationApplication
        kAudioObjectPropertyScopeGlobal) ++
    propItems opt "DeviceUID" (svc.fetch obj Selector.kAudioDevicePropertyDeviceUID
      kAudioObjectPropertyScopeGlobal) ++
    propItems opt "ModelUID" (svc.fetch obj Selector.kAudioDevicePropertyModelUID
      kAudioObjectPropertyScopeGlobal) ++
    propItems opt "TransportType" (svc.fetch obj Selector.kAudioDevicePropertyTransportType
      kAudioObjectPropertyScopeGlobal) ++
    propItems opt "HogMode" (svc.fetch obj Selector.kAudioDevicePropertyHogMode
      kAudioObjectPropertyScopeGlobal) ++
    propItems opt "RelatedDevices" (svc.fetch obj Selector.kAudioDevicePropertyRelatedDevices
      kAudioObjectPropertyScopeGlobal) ++
    propItems opt "ActiveSubDeviceList"
      (svc.fetch obj Selector.kAudioAggregateDevicePropertyActiveSubDeviceList
        kAudioObjectPropertyScopeGlobal) ++
    propItems opt "ClockDomain" (svc.fetch obj Selector.kAudioDevicePropertyClockDomain
      kAudioObjectPropertyScopeGlobal) ++
    propItems opt "ClockDevice" (svc.fetch obj Selector.kAudioDevicePropertyClockDevice
      kAudioObjectPropertyScopeGlobal) ++
    propItems opt "DeviceIsAlive" (svc.fetch obj Selector.kAudioDevicePropertyDeviceIsAlive
      kAudioObjectPropertyScopeGlobal) ++
    propItems opt "DeviceIsRunningSomewhere"
      (svc.fetch obj Selector.kAudioDevicePropertyDeviceIsRunningSomewhere
        kAudioObjectPropertyScopeGlobal) ++
    propItems opt "DeviceIsRunning" (svc.fetch obj Selector.kAudioDevicePropertyDeviceIsRunning
      kAudioObjectPropertyScopeGlobal) ++
    propItems opt "Input DeviceCanBeDefaultDevice"
      (svc.fetch obj Selector.kAudioDevicePropertyDeviceCanBeDefaultDevice
        kAudioObjectPropertyScopeInput) ++
    propItems opt "Output DeviceCanBeDefaultDevice"
      (svc.fetch obj Selector.kAudioDevicePropertyDeviceCanBeDefaultDevice
        kAudioObjectPropertyScopeOutput) ++
    propItems opt "Output DeviceCanBeDefaultSystemDevice"
      (svc.fetch obj Selector.kAudioDevicePropertyDeviceCanBeDefaultSystemDevice
        kAudioObjectPropertyScopeOutput) ++
    propItems opt "Input Latency" (svc.fetch obj Selector.kAudioDevicePropertyLatency
      kAudioObjectPropertyScopeInput) ++
    propItems opt "Output Latency" (svc.fetch obj Selector.kAudioDevicePropertyLatency
      kAudioObjectPropertyScopeOutput) ++
    propItems opt "Input Streams" (svc.fetch obj Selector.kAudioDevicePropertyStreams
      kAudioObjectPropertyScopeInput) ++
    propItems opt "Output Streams" (svc.fetch obj Selector.kAudioDevicePropertyStreams
      kAudioObjectPropertyScopeOutput) ++
    propItems opt "ControlList" (svc.fetch obj Selector.kAudioObjectPropertyControlList
      kAudioObjectPropertyScopeGlobal) ++
    propItems opt "Input SafetyOffset" (svc.fetch obj Selector.kAudioDevicePropertySafetyOffset
      kAudioObjectPropertyScopeInput) ++
    propItems opt "Output SafetyOffset" (svc.fetch obj Selector.kAudioDevicePropertySafetyOffset
      kAudioObjectPropertyScopeOutput) ++
    propItems opt "ActualSampleRate" (svc.fetch obj Selector.kAudioDevicePropertyActualSampleRate
      kAudioObjectPropertyScopeGlobal) ++
    propItems opt "NominalSampleRate"
      (svc.fetch obj Selector.kAudioDevicePropertyNominalSampleRate
        kAudioObjectPropertyScopeGlobal) ++
    (if opt.includeFormats then
      propItems opt "AvailableNominalSampleRates"
        (svc.fetch obj Selector.kAudioDevicePropertyAvailableNominalSampleRates
          kAudioObjectPropertyScopeGlobal)
    else []) ++
    propItems opt "BufferFrameSize" (svc.fetch obj Selector.kAudioDevicePropertyBufferFrameSize
      kAudioObjectPropertyScopeGlobal) ++
    propItems opt "BufferFrameSizeRange"
      (svc.fetch obj Selector.kAudioDevicePropertyBufferFrameSizeRange
        kAudioObjectPropertyScopeGlobal) ++
    propItems opt "UsesVariableBufferFrameSizes"
      (svc.fetch obj Selector.kAudioDevicePropertyUsesVariableBufferFrameSizes
        kAudioObjectPropertyScopeGlobal) ++
    propItems opt "Input PreferredChannelsForStereo"
      (svc.fetch obj Selector.kAudioDevicePropertyPreferredChannelsForStereo
        kAudioObjectPropertyScopeInput) ++
    propItems opt "Output PreferredChannelsForStereo"
      (svc.fetch obj Selector.kAudioDevicePropertyPreferredChannelsForStereo
        kAudioObjectPropertyScopeOutput)
/-- The device properties printed after the channel-layout line of
traverse_device (src/lib.rs lines 504-505). -/
def devicePropsPost (svc : HalService) (obj : AudioObjectID) (opt : TraversalOptions) :
    List ReportTree :=
  propItems opt "IOCycleUsage" (svc.fetch obj Selector.kAudioDevicePropertyIOCycleUsage
    kAudioObjectPropertyScopeGlobal) ++
  propItems opt "Input ProcessMute" (svc.fetch obj Selector.kAudioDevicePropertyProcessMute
    kAudioObjectPropertyScopeInput)

/-- traverse_device (src/lib.rs lines 454-506): the device property set,
with the optional channel-layout expansion in the middle; its panic
propagates. -/
def traverse_device (svc : HalService) (obj : AudioObjectID) (opt : TraversalOptions) :
    Option (List ReportTree) :=
  match (if opt.includeChannels then channel_layout_items svc obj opt else some []) with
  | none => none
  | some mid => some (devicePropsPre svc obj opt ++ mid ++ devicePropsPost svc obj opt)

/-- traverse_stream (src/lib.rs lines 528-559). -/
def traverse_stream (svc : HalService) (obj : AudioObjectID) (opt : TraversalOptions) :
    List ReportTree :=
  propItems opt "IsActive" (svc.fetch obj Selector.kAudioStreamPropertyIsActive
    kAudioObjectPropertyScopeGlobal) ++
  propItems opt "Direction" (svc.fetch obj Selector.kAudioStreamPropertyDirection
    kAudioObjectPropertyScopeGlobal) ++
  propItems opt "TerminalType" (svc.fetch obj Selector.kAudioStreamPropertyTerminalType
    kAudioObjectPropertyScopeGlobal) ++
  propItems opt "StartingChannel" (svc.fetch obj Selector.kAudioStreamPropertyStartingChannel
    kAudioObjectPropertyScopeGlobal) ++
  propItems opt "Input Latency" (svc.fetch obj Selector.kAudioStreamPropertyLatency
    kAudioObjectPropertyScopeInput) ++
  propItems opt "Output Latency" (svc.fetch obj Selector.kAudioStreamPropertyLatency
    kAudioObjectPropertyScopeOutput) ++
  propItems opt "VirtualFormat" (svc.fetch obj Selector.kAudioStreamPropertyVirtualFormat
    kAudioObjectPropertyScopeGlobal) ++
  (if opt.includeFormats then
    propItems opt "AvailableVirtualFormats"
      (svc.fetch obj Selector.kAudioStreamPropertyAvailableVirtualFormats
        kAudioObjectPropertyScopeGlobal)
  else []) ++
  propItems opt "PhysicalFormat" (svc.fetch obj Selector.kAudioStreamPropertyPhysicalFormat
    kAudioObjectPropertyScopeGlobal) ++
  (if opt.includeFormats then
    propItems opt "AvailablePhysicalFormats"
      (svc.fetch obj Selector.kAudioStreamPropertyAvailablePhysicalFormats
        kAudioObjectPropertyScopeGlobal)
  else [])

/-- traverse_process (src/lib.rs lines 561-569). -/
def traverse_process (svc : HalService) (obj : AudioObjectID) (opt : TraversalOptions) :
    List ReportTree :=
  propItems opt "PID" (svc.fetch obj Selector.kAudioProcessPropertyPID
    kAudioObjectPropertyScopeGlobal) ++
  propItems opt "BundleID" (svc.fetch obj Selector.kAudioProcessPropertyBundleID
    kAudioObjectPropertyScopeGlobal) ++
  propItems opt "Input Devices" (svc.fetch obj Selector.kAudioProcessPropertyDevices
    kAudioObjectPropertyScopeInput) ++
  propItems opt "Output Devices" (svc.fetch obj Selector.kAudioProcessPropertyDevices
    kAudioObjectPropertyScopeOutput) ++
  propItems opt "IsRunning" (svc.fetch obj Selector.kAudioProcessPropertyIsRunning
    kAudioObjectPropertyScopeGlobal) ++
  propItems opt "IsRunningInput" (svc.fetch obj Selector.kAudioProcessPropertyIsRunningInput
    kAudioObjectPropertyScopeGlobal) ++
  propItems opt "IsRunningOutput" (svc.fetch obj Selector.kAudioProcessPropertyIsRunningOutput
    kAudioObjectPropertyScopeGlobal)

/-- traverse_hw (src/lib.rs lines 571-592). -/
def traverse_hw (svc : HalService) (obj : AudioObjectID) (opt : TraversalOptions) :
    List ReportTree :=
  propItems opt "Devices" (svc.fetch obj Selector.kAudioHardwarePropertyDevices
    kAudioObjectPropertyScopeGlobal) ++
  propItems opt "DefaultInputDevice"
    (svc.fetch obj Selector.kAudioHardwarePropertyDefaultInputDevice
      kAudioObjectPropertyScopeGlobal) ++
  propItems opt "DefaultOutputDevice"
    (svc.fetch obj Selector.kAudioHardwarePropertyDefaultOutputDevice
      kAudioObjectPropertyScopeGlobal) ++
  propItems opt "DefaultSystemOutputDevice"
    (svc.fetch obj Selector.kAudioHardwarePropertyDefaultSystemOutputDevice
      kAudioObjectPropertyScopeGlobal) ++
  propItems opt "MixStereoToMono" (svc.fetch obj Selector.kAudioHardwarePropertyMixStereoToMono
    kAudioObjectPropertyScopeGlobal) ++
  propItems opt "PlugInList" (svc.fetch obj Selector.kAudioHardwarePropertyPlugInList
    kAudioObjectPropertyScopeGlobal) ++
  propItems opt "TransportManagerList"
    (svc.fetch obj Selector.kAudioHardwarePropertyTransportManagerList
      kAudioObjectPropertyScopeGlobal) ++
  propItems opt "BoxList" (svc.fetch obj Selector.kAudioHardwarePropertyBoxList
    kAudioObjectPropertyScopeGlobal) ++
  propItems opt "ClockDeviceList" (svc.fetch obj Selector.kAudioHardwarePropertyClockDeviceList
    kAudioObjectPropertyScopeGlobal) ++
  propItems opt "ProcessIsMain" (svc.fetch obj Selector.kAudioHardwarePropertyProcessIsMain
    kAudioObjectPropertyScopeGlobal) ++
  propItems opt "IsInitingOrExiting"
    (svc.fetch obj Selector.kAudioHardwarePropertyIsInitingOrExiting
      kAudioObjectPropertyScopeGlobal) ++
  propItems opt "ProcessInputMute" (svc.fetch obj Selector.kAudioHardwarePropertyProcessInputMute
    kAudioObjectPropertyScopeGlobal) ++
  propItems opt "ProcessIsAudible" (svc.fetch obj Selector.kAudioHardwarePropertyProcessIsAudible
    kAudioObjectPropertyScopeGlobal) ++
  propItems opt "SleepingIsAllowed"
    (svc.fetch obj Selector.kAudioHardwarePropertySleepingIsAllowed
      kAudioObjectPropertyScopeGlobal) ++
  propItems opt "UnloadingIsAllowed"
    (svc.fetch obj Selector.kAudioHardwarePropertyUnloadingIsAllowed
      kAudioObjectPropertyScopeGlobal) ++
  propItems opt "HogModeIsAllowed" (svc.fetch obj Selector.kAudioHardwarePropertyHogModeIsAllowed
    kAudioObjectPropertyScopeGlobal) ++
  propItems opt "UserSessionIsActiveOrHeadless"
    (svc.fetch obj Selector.kAudioHardwarePropertyUserSessionIsActiveOrHeadless
      kAudioObjectPropertyScopeGlobal) ++
  propItems opt "PowerHint" (svc.fetch obj Selector.kAudioHardwarePropertyPowerHint
    kAudioObjectPropertyScopeGlobal) ++
  propItems opt "ProcessObjectList"
    (svc.fetch obj Selector.kAudioHardwarePropertyProcessObjectList
      kAudioObjectPropertyScopeGlobal) ++
  propItems opt "TapList" (svc.fetch obj Selector.kAudioHardwarePropertyTapList
    kAudioObjectPropertyScopeGlobal)

/-- The class dispatch of traverse_obj (src/lib.rs lines 648-659): the
system object, aggregate device, sub device, device, stream and process
classes get their class-specific property sets; a class-lookup failure or
any other class prints nothing extra. -/
def classDispatch (svc : HalService) (obj : AudioObjectID)
    (class_id : Except OSStatus AudioClassID) (opt : TraversalOptions) :
    Option (List ReportTree) :=
  match class_id with
  | Except.error _ => some []
  | Except.ok c =>
    if c = kAudioSystemObjectClassID then some (traverse_hw svc obj opt)
    else if c = kAudioAggregateDeviceClassID then
      match traverse_device svc obj opt with
      | none => none
      | some d => some (traverse_aggregate_device svc obj opt ++ d)
    else if c = kAudioSubDeviceClassID ∨ c = kAudioDeviceClassID then
      traverse_device svc obj opt
    else if c = kAudioStreamClassID then some (traverse_stream svc obj opt)
    else if c = kAudioProcessClassID then some (traverse_process svc obj opt)
    else some []

/-- The reporting part of traverse_obj (src/lib.rs lines 638-664), reached
when no filter rule skipped the object: the branch labelled with the
object id, the two class leaves, the common properties, the class
dispatch and the child forest, with every panic propagated in source
order. -/
def traverse_report (svc : HalService) (obj : AudioObjectID) (opt : TraversalOptions)
    (childResult : Option (List ReportTree)) : Option (List ReportTree) :=
  match add_class_id "BaseClass" (svc.classProp obj Selector.kAudioObjectPropertyBaseClass) with
  | none => none
  | some b1 =>
    match add_class_id "Class" (svc.classProp obj Selector.kAudioObjectPropertyClass) with
    | none => none
    | some b2 =>
      match classDispatch svc obj (svc.classProp obj Selector.kAudioObjectPropertyClass) opt with
      | none => none
      | some disp =>
        match childResult with
        | none => none
        | some cf =>
          some [ReportTree.branch ("AudioObjectID: " ++ toString obj)
            ((b1 :: b2 :: commonProps svc obj opt) ++ disp ++ cf)]

/-- The per-object body of traverse_obj (src/lib.rs lines 594-665) with the
child recursion factored out: class lookups, the six short-circuit filter
rules (each an early return), then the reporting part.  childResult is the
forest the recursion over the OwnedObjects children produced (ignored when
a filter rule skips the object, just as the source never visits them). -/
def traverse_body (svc : HalService) (obj : AudioObjectID) (opt : TraversalOptions)
    (childResult : Option (List ReportTree)) : Option (List ReportTree) :=
  if !opt.includeControls && isOkAnd (svc.classProp obj Selector.kAudioObjectPropertyBaseClass)
      (fun id => controlBaseClasses.contains id) then
    some []
  else if !opt.includeBoxes && isOkAnd (svc.classProp obj Selector.kAudioObjectPropertyClass)
      (fun id => id == kAudioBoxClassID) then
    some []
  else if !opt.includeClocks && isOkAnd (svc.classProp obj Selector.kAudioObjectPropertyClass)
      (fun id => id == kAudioClockDeviceClassID) then
    some []
  else if !opt.includeStreams && isOkAnd (svc.classProp obj Selector.kAudioObjectPropertyClass)
      (fun id => id == kAudioStreamClassID) then
    some []
  else if !opt.includePlugins && isOkAnd (svc.classProp obj Selector.kAudioObjectPropertyClass)
      (fun id => id == kAudioPlugInClassID) then
    some []
  else if !opt.includeProcesses && isOkAnd (svc.classProp obj Selector.kAudioObjectPropertyClass)
      (fun id => id == kAudioProcessClassID) then
    some []
  else
    traverse_report svc obj opt childResult

mutual

/-- traverse_obj (src/lib.rs lines 594-665): one call per visited object.
The result is the list of report trees the call emits at its own level:
none models a panic aborting the run, some [] a skipped object, and a
singleton branch a reported one. -/
def traverse_obj (svc : HalService) : ObjGraph → TraversalOptions → Option (List ReportTree)
  | ObjGraph.node obj ownErr kids, opt =>
    traverse_body svc obj opt
      (match ownErr with
        | some _ => some []
        | none => traverse_forest svc kids opt)

/-- The child loop of traverse_obj (src/lib.rs lines 660-664): children in
service order, each contributing its emitted trees. -/
def traverse_forest (svc : HalService) : List ObjGraph → TraversalOptions → Option (List ReportTree)
  | [], _ => some []
  | g :: gs, opt =>
    match traverse_obj svc g opt with
    | none => none
    | some ts =>
      match traverse_forest svc gs opt with
      | none => none
      | some rest => some (ts ++ rest)

end

theorem traverse_obj_node (svc : HalService) (obj : AudioObjectID) (ownErr : Option OSStatus)
    (kids : List ObjGraph) (opt : TraversalOptions) :
    traverse_obj svc (ObjGraph.node obj ownErr kids) opt =
      traverse_body svc obj opt
        (match ownErr with
          | some _ => some []
          | none => traverse_forest svc kids opt) := rfl

theorem guard_eq_false (flag b : Bool) (h : b = true → flag = true) : (!flag && b) = false := by
  cases b
  · simp
  · simp [h rfl]

theorem isOkAnd_beq_true (r : Except OSStatus AudioClassID) (c : AudioClassID) :
    isOkAnd r (fun id => id == c) = true ↔ r = Except.ok c := by
  cases r <;> simp [isOkAnd]

/-- C6: the include-all preset yields every class and verbose include bit
set and the debug bit clear, regardless of the prior option state. -/
theorem include_all_preset (prev : TraversalOptions) :
    (applyIncludeAll prev).includeBoxes = true ∧
    (applyIncludeAll prev).includeClocks = true ∧
    (applyIncludeAll prev).includeStreams = true ∧
    (applyIncludeAll prev).includeFormats = true ∧
    (applyIncludeAll prev).includeChannels = true ∧
    (applyIncludeAll prev).includeControls = true ∧
    (applyIncludeAll prev).includePlugins = true ∧
    (applyIncludeAll prev).includeProcesses = true ∧
    (applyIncludeAll prev).debug = false :=
  ⟨rfl, rfl, rfl, rfl, rfl, rfl, rfl, rfl, rfl⟩

/-- C1: each of the six filter rules, with its option bit unset, suppresses
the branch of a matching object (and, the whole subtree result being
empty, of all its descendants); when every rule that matches the object
has its option bit set, a completed visit emits the branch for the
object. -/
theorem filter_policy (svc : HalService) (obj : AudioObjectID) (ownErr : Option OSStatus)
    (kids : List ObjGraph) (opt : TraversalOptions) :
    (opt.includeControls = false →
      isOkAnd (svc.classProp obj Selector.kAudioObjectPropertyBaseClass)
        (fun id => controlBaseClasses.contains id) = true →
      traverse_obj svc (ObjGraph.node obj ownErr kids) opt = some []) ∧
    (opt.includeBoxes = false →
      svc.classProp obj Selector.kAudioObjectPropertyClass = Except.ok kAudioBoxClassID →
      traverse_obj svc (ObjGraph.node obj ownErr kids) opt = some []) ∧
    (opt.includeClocks = false →
      svc.classProp obj Selector.kAudioObjectPropertyClass = Except.ok kAudioClockDeviceClassID →
      traverse_obj svc (ObjGraph.node obj ownErr kids) opt = some []) ∧
    (opt.includeStreams = false →
      svc.classProp obj Selector.kAudioObjectPropertyClass = Except.ok kAudioStreamClassID →
      traverse_obj svc (ObjGraph.node obj ownErr kids) opt = some []) ∧
    (opt.includePlugins = false →
      svc.classProp obj Selector.kAudioObjectPropertyClass = Except.ok kAudioPlugInClassID →
      traverse_obj svc (ObjGraph.node obj ownErr kids) opt = some []) ∧
    (opt.includeProcesses = false →
      svc.classProp obj Selector.kAudioObjectPropertyClass = Except.ok kAudioProcessClassID →
      traverse_obj svc (ObjGraph.node obj ownErr kids) opt = some []) ∧
    ((isOkAnd (svc.classProp obj Selector.kAudioObjectPropertyBaseClass)
        (fun id => controlBaseClasses.contains id) = true → opt.includeControls = true) →
      (svc.classProp obj Selector.kAudioObjectPropertyClass = Except.ok kAudioBoxClassID →
        opt.includeBoxes = true) →
      (svc.classProp obj Selector.kAudioObjectPropertyClass = Except.ok kAudioClockDeviceClassID →
        opt.includeClocks = true) →
      (svc.classProp obj Selector.kAudioObjectPropertyClass = Except.ok kAudioStreamClassID →
        opt.includeStreams = true) →
      (svc.classProp obj Selector.kAudioObjectPropertyClass = Except.ok kAudioPlugInClassID →
        opt.includePlugins = true) →
      (svc.classProp obj Selector.kAudioObjectPropertyClass = Except.ok kAudioProcessClassID →
        opt.includeProcesses = true) →
      ∀ l, traverse_obj svc (ObjGraph.node obj ownErr kids) opt = some l →
        ∃ items, l = [ReportTree.branch ("AudioObjectID: " ++ toString obj) items]) := by
  refine ⟨?_, ?_, ?_, ?_, ?_, ?_, ?_⟩
  · intro hflag hbase
    rw [traverse_obj_node]
    unfold traverse_body
    simp only [hflag, hbase]
    simp
  · intro hflag hcls
    rw [traverse_obj_node]
    unfold traverse_body
    simp [hflag, hcls, isOkAnd]
  · intro hflag hcls
    rw [traverse_obj_node]
    unfold traverse_body
    simp [hflag, hcls, isOkAnd, kAudioClockDeviceClassID, kAudioBoxClassID]
  · intro hflag hcls
    rw [traverse_obj_node]
    unfold traverse_body
    simp [hflag, hcls, isOkAnd, kAudioStreamClassID, kAudioBoxClassID, kAudioClockDeviceClassID]
  · intro hflag hcls
    rw [traverse_obj_node]
    unfold traverse_body
    simp [hflag, hcls, isOkAnd, kAudioPlugInClassID, kAudioBoxClassID, kAudioClockDeviceClassID,
      kAudioStreamClassID]
  · intro hflag hcls
    rw [traverse_obj_node]
    unfold traverse_body
    simp [hflag, hcls, isOkAnd, kAudioProcessClassID, kAudioBoxClassID, kAudioClockDeviceClassID,
      kAudioStreamClassID, kAudioPlugInClassID]
  · intro h1 h2 h3 h4 h5 h6 l hl
    rw [traverse_obj_node] at hl
    unfold traverse_body at hl
    rw [guard_eq_false _ _ h1,
      guard_eq_false _ _ (fun hb => h2 ((isOkAnd_beq_true _ _).1 hb)),
      guard_eq_false _ _ (fun hb => h3 ((isOkAnd_beq_true _ _).1 hb)),
      guard_eq_false _ _ (fun hb => h4 ((isOkAnd_beq_true _ _).1 hb)),
      guard_eq_false _ _ (fun hb => h5 ((isOkAnd_beq_true _ _).1 hb)),
      guard_eq_false _ _ (fun hb => h6 ((isOkAnd_beq_true _ _).1 hb))] at hl
    simp only [Bool.false_eq_true, if_false] at hl
    unfold traverse_report at hl
    rcases hb1 : add_class_id "BaseClass"
        (svc.classProp obj Selector.kAudioObjectPropertyBaseClass) with _ | b1
    · rw [hb1] at hl
      exact absurd hl (by simp)
    · rw [hb1] at hl
      rcases hb2 : add_class_id "Class"
          (svc.classProp obj Selector.kAudioObjectPropertyClass) with _ | b2
      · rw [hb2] at hl
        exact absurd hl (by simp)
      · rw [hb2] at hl
        rcases hdisp : classDispatch svc obj
            (svc.classProp obj Selector.kAudioObjectPropertyClass) opt with _ | disp
        · rw [hdisp] at hl
          exact absurd hl (by simp)
        · rw [hdisp] at hl
          rcases hcf : (match ownErr with
              | some _ => some []
              | none => traverse_forest svc kids opt) with _ | cf
          · rw [hcf] at hl
            exact absurd hl (by simp)
          · rw [hcf] at hl
            injection hl with h
            exact ⟨_, h.symm⟩

deriving instance DecidableEq for Except

/-- Service used by the filter_policy witness: the exact class is the box
class, the base-class lookup fails, every property fetch fails. -/
def svcC1 : HalService :=
  ⟨fun _ sel => if sel = Selector.kAudioObjectPropertyClass then Except.ok kAudioBoxClassID
    else Except.error 1,
   fun _ _ _ => Except.error 1,
   ⟨fun _ _ => (1, 0), fun _ _ _ => (1, fun _ => 0)⟩⟩

/-- Options with only the boxes bit set. -/
def optBoxesOnly : TraversalOptions :=
  { TraversalOptions.empty with includeBoxes := true }

/-- Concrete instantiation of filter_policy: a box-class object is
suppressed when the boxes bit is unset and reported as a branch when it
is set. -/
theorem filter_policy_witness :
    traverse_obj svcC1 (ObjGraph.node 7 none []) TraversalOptions.empty = some [] ∧
    (∃ items, traverse_obj svcC1 (ObjGraph.node 7 none []) optBoxesOnly =
      some [ReportTree.branch ("AudioObjectID: " ++ toString (7 : AudioObjectID)) items]) := by
  constructor
  · exact (filter_policy svcC1 7 none [] TraversalOptions.empty).2.1 rfl rfl
  · have hl : traverse_obj svcC1 (ObjGraph.node 7 none []) optBoxesOnly =
        some [ReportTree.branch ("AudioObjectID: " ++ toString (7 : AudioObjectID))
          ((ReportTree.leaf ("BaseClass" ++ ": Err(" ++ toString (1 : OSStatus) ++ ")") ::
            ReportTree.leaf ("Class" ++ " (Known): " ++ quoted "AudioBox") ::
            commonProps svcC1 7 optBoxesOnly) ++ [] ++ [])] := rfl
    obtain ⟨items, hitems⟩ := (filter_policy svcC1 7 none [] optBoxesOnly).2.2.2.2.2.2
      (fun hb => absurd hb (by decide)) (fun _ => rfl)
      (fun hc => absurd hc (by decide)) (fun hc => absurd hc (by decide))
      (fun hc => absurd hc (by decide)) (fun hc => absurd hc (by decide)) _ hl
    exact ⟨items, by rw [← hitems]; exact hl⟩

/-- C5: when both class lookups fail, no filter rule fires whatever the
option bits are: the object is reported as a branch (with the failing
lookups as its class leaves and no class-specific dispatch) and its
children are still traversed. -/
theorem class_lookup_failure (svc : HalService) (obj : AudioObjectID) (ownErr : Option OSStatus)
    (kids : List ObjGraph) (opt : TraversalOptions) (e eb : OSStatus)
    (hc : svc.classProp obj Selector.kAudioObjectPropertyClass = Except.error e)
    (hb : svc.classProp obj Selector.kAudioObjectPropertyBaseClass = Except.error eb) :
    traverse_obj svc (ObjGraph.node obj ownErr kids) opt =
      match (match ownErr with
        | some _ => some []
        | none => traverse_forest svc kids opt) with
      | none => none
      | some cf =>
        some [ReportTree.branch ("AudioObjectID: " ++ toString obj)
          ((ReportTree.leaf ("BaseClass" ++ ": Err(" ++ toString eb ++ ")") ::
            ReportTree.leaf ("Class" ++ ": Err(" ++ toString e ++ ")") ::
            commonProps svc obj opt) ++ [] ++ cf)] := by
  rw [traverse_obj_node]
  unfold traverse_body
  rw [hc, hb]
  simp only [isOkAnd, Bool.and_false, Bool.false_eq_true, if_false]
  unfold traverse_report
  rw [hc, hb]
  simp only [add_class_id, classDispatch]

/-- Service used by the class_lookup_failure witness: both class lookups
fail with distinct status codes, every property fetch fails. -/
def svcC5 : HalService :=
  ⟨fun _ sel => if sel = Selector.kAudioObjectPropertyClass then Except.error 3
    else Except.error 4,
   fun _ _ _ => Except.error 1,
   ⟨fun _ _ => (1, 0), fun _ _ _ => (1, fun _ => 0)⟩⟩

/-- Concrete instantiation of class_lookup_failure: with every include bit
unset and both lookups failing, the object is still reported. -/
theorem class_lookup_failure_witness :
    traverse_obj svcC5 (ObjGraph.node 9 none []) TraversalOptions.empty =
      some [ReportTree.branch ("AudioObjectID: " ++ toString (9 : AudioObjectID))
        ((ReportTree.leaf ("BaseClass" ++ ": Err(" ++ toString (4 : OSStatus) ++ ")") ::
          ReportTree.leaf ("Class" ++ ": Err(" ++ toString (3 : OSStatus) ++ ")") ::
          commonProps svcC5 9 TraversalOptions.empty) ++ [] ++ [])] := by
  have h := class_lookup_failure svcC5 9 none [] TraversalOptions.empty 3 4 rfl rfl
  exact h.trans rfl

/-- C9: a preferred-channel-layout buffer shorter than the fixed header base
size (in particular the empty buffer produced by a 0-byte size probe)
fails the length assertion of expand_channel_layout; under
INCLUDE_CHANNELS that panic propagates through traverse_device and aborts
the whole traversal instead of omitting the one property. -/
theorem short_channel_layout_aborts :
    (∀ data : List Nat, data.length < acl_base_len → expand_channel_layout data = none) ∧
    (∀ (svc : HalService) (obj : AudioObjectID) (ownErr : Option OSStatus)
      (kids : List ObjGraph) (opt : TraversalOptions) (eb : OSStatus),
      opt.includeChannels = true →
      svc.classProp obj Selector.kAudioObjectPropertyClass = Except.ok kAudioDeviceClassID →
      svc.classProp obj Selector.kAudioObjectPropertyBaseClass = Except.error eb →
      svc.bytes.getDataSize obj ⟨Selector.kAudioDevicePropertyPreferredChannelLayout,
        kAudioObjectPropertyScopeOutput, kAudioObjectPropertyElementMaster⟩ = (0, 0) →
      (svc.bytes.getData obj ⟨Selector.kAudioDevicePropertyPreferredChannelLayout,
        kAudioObjectPropertyScopeOutput, kAudioObjectPropertyElementMaster⟩ 0).1 = 0 →
      traverse_obj svc (ObjGraph.node obj ownErr kids) opt = none) := by
  constructor
  · intro data hlen
    unfold expand_channel_layout
    rw [if_neg (by omega)]
  · intro svc obj ownErr kids opt eb hch hc hb hsize hdata
    have hlist : get_list_property_scoped Nat 1 svc.bytes obj
        Selector.kAudioDevicePropertyPreferredChannelLayout kAudioObjectPropertyScopeOutput =
        Except.ok [] := by
      simp only [get_list_property_scoped, hsize]
      simp [hdata]
    have hchan : channel_layout_items svc obj opt = none := by
      unfold channel_layout_items
      rw [hlist]
      rfl
    have hdev : traverse_device svc obj opt = none := by
      unfold traverse_device
      simp only [hch, if_true, hchan]
    have hdisp : classDispatch svc obj (Except.ok kAudioDeviceClassID) opt = none := by
      simp only [classDispatch]
      rw [if_neg (by decide), if_neg (by decide), if_pos (by decide)]
      exact hdev
    have hab : add_class_id "BaseClass" (Except.error eb) =
        some (ReportTree.leaf ("BaseClass" ++ ": Err(" ++ toString eb ++ ")")) := rfl
    have hacid : add_class_id "Class" (Except.ok kAudioDeviceClassID) =
        some (ReportTree.leaf ("Class" ++ " (Known): " ++ quoted "AudioDevice")) := rfl
    rw [traverse_obj_node]
    unfold traverse_body
    rw [hb, hc]
    simp only [isOkAnd, Bool.and_false, Bool.false_eq_true, if_false,
      kAudioDeviceClassID, kAudioBoxClassID, kAudioClockDeviceClassID, kAudioStreamClassID,
      kAudioPlugInClassID, kAudioProcessClassID]
    unfold traverse_report
    rw [hb, hc]
    simp only [hab, hacid, hdisp]
    simp

/-- Service used by the short_channel_layout_aborts witness: a device-class
object whose preferred-channel-layout size probe reports 0 bytes. -/
def svcC9 : HalService :=
  ⟨fun _ sel => if sel = Selector.kAudioObjectPropertyClass then Except.ok kAudioDeviceClassID
    else Except.error 2,
   fun _ _ _ => Except.error 1,
   ⟨fun _ _ => (0, 0), fun _ _ _ => (0, fun _ => 0)⟩⟩

/-- Options with only the channels bit set. -/
def optChannelsOnly : TraversalOptions :=
  { TraversalOptions.empty with includeChannels := true }

/-- Concrete instantiation of short_channel_layout_aborts: the traversal of
such a device aborts with no output at all. -/
theorem short_channel_layout_aborts_witness :
    traverse_obj svcC9 (ObjGraph.node 4 none []) optChannelsOnly = none :=
  short_channel_layout_aborts.2 svcC9 4 none [] optChannelsOnly 2 rfl rfl rfl rfl rfl

/-! ## Report shape

The shape of a report erases every leaf and keeps the branch structure:
it captures which objects were reported and how the recursion nested,
independently of which property values were printed. -/

mutual

/-- Erase a tree to its branch skeleton (none for a leaf). -/
def shapeTree : ReportTree → Option ReportTree
  | ReportTree.leaf _ => none
  | ReportTree.branch l ts => some (ReportTree.branch l (shapeForest ts))

/-- Erase every leaf of a forest, keeping branch structure. -/
def shapeForest : List ReportTree → List ReportTree
  | [] => []
  | t :: ts =>
    match shapeTree t with
    | none => shapeForest ts
    | some s => s :: shapeForest ts

end

theorem shapeForest_nil : shapeForest [] = [] := rfl

theorem shapeForest_cons (t : ReportTree) (ts : List ReportTree) :
    shapeForest (t :: ts) =
      match shapeTree t with
      | none => shapeForest ts
      | some s => s :: shapeForest ts := rfl

theorem shapeTree_leaf (s : String) : shapeTree (ReportTree.leaf s) = none := rfl

theorem shapeForest_append (a b : List ReportTree) :
    shapeForest (a ++ b) = shapeForest a ++ shapeForest b := by
  induction a with
  | nil => simp [shapeForest_nil]
  | cons t ts ih =>
    simp only [List.cons_append, shapeForest_cons, ih]
    cases shapeTree t <;> simp

theorem shapeForest_propItems (opt : TraversalOptions) (name : String)
    (r : Except OSStatus String) : shapeForest (propItems opt name r) = [] := by
  cases h : opt.debug with
  | false => cases r <;> simp [propItems, h, shapeForest_cons, shapeTree, shapeForest_nil]
  | true => simp [propItems, h, shapeForest_cons, shapeTree, shapeForest_nil]

theorem shapeForest_ite (P : Prop) [Decidable P] (l : List ReportTree)
    (h : shapeForest l = []) : shapeForest (if P then l else []) = [] := by
  by_cases hp : P <;> simp [hp, h, shapeForest_nil]

theorem shapeForest_commonProps (svc : HalService) (obj : AudioObjectID)
    (opt : TraversalOptions) : shapeForest (commonProps svc obj opt) = [] := by
  unfold commonProps
  simp [shapeForest_append, shapeForest_propItems]

theorem shapeForest_aggregate (svc : HalService) (obj : AudioObjectID)
    (opt : TraversalOptions) : shapeForest (traverse_aggregate_device svc obj opt) = [] := by
  unfold traverse_aggregate_device
  simp [shapeForest_append, shapeForest_propItems]

theorem shapeForest_devicePre (svc : HalService) (obj : AudioObjectID)
    (opt : TraversalOptions) : shapeForest (devicePropsPre svc obj opt) = [] := by
  unfold devicePropsPre
  simp [shapeForest_append, shapeForest_propItems, shapeForest_ite]

theorem shapeForest_devicePost (svc : HalService) (obj : AudioObjectID)
    (opt : TraversalOptions) : shapeForest (devicePropsPost svc obj opt) = [] := by
  unfold devicePropsPost
  simp [shapeForest_append, shapeForest_propItems]

theorem shapeForest_stream (svc : HalService) (obj : AudioObjectID)
    (opt : TraversalOptions) : shapeForest (traverse_stream svc obj opt) = [] := by
  unfold traverse_stream
  simp [shapeForest_append, shapeForest_propItems, shapeForest_ite]

theorem shapeForest_process (svc : HalService) (obj : AudioObjectID)
    (opt : TraversalOptions) : shapeForest (traverse_process svc obj opt) = [] := by
  unfold traverse_process
  simp [shapeForest_append, shapeForest_propItems]

theorem shapeForest_hw (svc : HalService) (obj : AudioObjectID)
    (opt : TraversalOptions) : shapeForest (traverse_hw svc obj opt) = [] := by
  unfold traverse_hw
  simp [shapeForest_append, shapeForest_propItems]

theorem shapeForest_channel (svc : HalService) (obj : AudioObjectID)
    (opt : TraversalOptions) (l : List ReportTree)
    (h : channel_layout_items svc obj opt = some l) : shapeForest l = [] := by
  unfold channel_layout_items at h
  rcases hr : get_list_property_scoped Nat 1 svc.bytes obj
      Selector.kAudioDevicePropertyPreferredChannelLayout kAudioObjectPropertyScopeOutput
    with e | data
  · simp only [hr] at h
    have h := Option.some.inj h
    rw [← h]
    exact shapeForest_propItems _ _ _
  · simp only [hr] at h
    rcases hx : expand_channel_layout data with _ | ex
    · simp only [hx] at h
      exact Option.noConfusion h
    · simp only [hx] at h
      have h := Option.some.inj h
      rw [← h]
      exact shapeForest_propItems _ _ _

theorem shapeForest_device (svc : HalService) (obj : AudioObjectID)
    (opt : TraversalOptions) (l : List ReportTree)
    (h : traverse_device svc obj opt = some l) : shapeForest l = [] := by
  unfold traverse_device at h
  cases hch : opt.includeChannels with
  | false =>
    rw [hch] at h
    rw [if_neg (by simp)] at h
    have h := Option.some.inj h
    rw [← h]
    simp [shapeForest_append, shapeForest_devicePre, shapeForest_devicePost, shapeForest_nil]
  | true =>
    rw [hch] at h
    rw [if_pos rfl] at h
    rcases hc : channel_layout_items svc obj opt with _ | mid
    · simp only [hc] at h
      exact Option.noConfusion h
    · simp only [hc] at h
      have h := Option.some.inj h
      rw [← h]
      have hmid := shapeForest_channel svc obj opt mid hc
      simp [shapeForest_append, shapeForest_devicePre, shapeForest_devicePost, hmid]

theorem shapeForest_classDispatch (svc : HalService) (obj : AudioObjectID)
    (cls : Except OSStatus AudioClassID) (opt : TraversalOptions) (d : List ReportTree)
    (h : classDispatch svc obj cls opt = some d) : shapeForest d = [] := by
  rcases cls with e | c
  · simp only [classDispatch] at h
    have h := Option.some.inj h
    rw [← h]
    rfl
  · simp only [classDispatch] at h
    by_cases h1 : c = kAudioSystemObjectClassID
    · rw [if_pos h1] at h
      have h := Option.some.inj h
      rw [← h]
      exact shapeForest_hw _ _ _
    rw [if_neg h1] at h
    by_cases h2 : c = kAudioAggregateDeviceClassID
    · rw [if_pos h2] at h
      rcases hd : traverse_device svc obj opt with _ | d2
      · simp only [hd] at h
        exact Option.noConfusion h
      · simp only [hd] at h
        have h := Option.some.inj h
        rw [← h]
        rw [shapeForest_append, shapeForest_aggregate, shapeForest_device svc obj opt d2 hd]
        rfl
    rw [if_neg h2] at h
    by_cases h3 : c = kAudioSubDeviceClassID ∨ c = kAudioDeviceClassID
    · rw [if_pos h3] at h
      exact shapeForest_device svc obj opt d h
    rw [if_neg h3] at h
    by_cases h4 : c = kAudioStreamClassID
    · rw [if_pos h4] at h
      have h := Option.some.inj h
      rw [← h]
      exact shapeForest_stream _ _ _
    rw [if_neg h4] at h
    by_cases h5 : c = kAudioProcessClassID
    · rw [if_pos h5] at h
      have h := Option.some.inj h
      rw [← h]
      exact shapeForest_process _ _ _
    rw [if_neg h5] at h
    have h := Option.some.inj h
    rw [← h]
    rfl

theorem add_class_id_leaf (i : String) (r : Except OSStatus AudioClassID) (t : ReportTree)
    (h : add_class_id i r = some t) : shapeTree t = none := by
  rcases r with e | c
  · simp only [add_class_id] at h
    have h := Option.some.inj h
    rw [← h]
    rfl
  · simp only [add_class_id] at h
    rcases hcs : class_to_str c with _ | s
    · simp only [hcs] at h
      rcases hcn : cstring_new (to_be_bytes c) with _ | bs
      · simp only [hcn] at h
        exact Option.noConfusion h
      · simp only [hcn] at h
        have h := Option.some.inj h
        rw [← h]
        rfl
    · simp only [hcs] at h
      have h := Option.some.inj h
      rw [← h]
      rfl

theorem shapeForest_traverse_report (svc1 svc2 : HalService) (obj : AudioObjectID)
    (opt : TraversalOptions) (cr1 cr2 : Option (List ReportTree)) (l1 l2 : List ReportTree)
    (hcp : svc1.classProp = svc2.classProp)
    (h1 : traverse_report svc1 obj opt cr1 = some l1)
    (h2 : traverse_report svc2 obj opt cr2 = some l2)
    (hcf : ∀ cf1 cf2, cr1 = some cf1 → cr2 = some cf2 → shapeForest cf1 = shapeForest cf2) :
    shapeForest l1 = shapeForest l2 := by
  unfold traverse_report at h1 h2
  rw [← hcp] at h2
  rcases hb1 : add_class_id "BaseClass"
      (svc1.classProp obj Selector.kAudioObjectPropertyBaseClass) with _ | b1
  · simp only [hb1] at h1
    exact Option.noConfusion h1
  simp only [hb1] at h1 h2
  rcases hb2 : add_class_id "Class"
      (svc1.classProp obj Selector.kAudioObjectPropertyClass) with _ | b2
  · simp only [hb2] at h1
    exact Option.noConfusion h1
  simp only [hb2] at h1 h2
  rcases hd1 : classDispatch svc1 obj
      (svc1.classProp obj Selector.kAudioObjectPropertyClass) opt with _ | d1
  · simp only [hd1] at h1
    exact Option.noConfusion h1
  simp only [hd1] at h1
  rcases hd2 : classDispatch svc2 obj
      (svc1.classProp obj Selector.kAudioObjectPropertyClass) opt with _ | d2
  · simp only [hd2] at h2
    exact Option.noConfusion h2
  simp only [hd2] at h2
  rcases hc1 : cr1 with _ | cf1
  · simp only [hc1] at h1
    exact Option.noConfusion h1
  simp only [hc1] at h1
  rcases hc2 : cr2 with _ | cf2
  · simp only [hc2] at h2
    exact Option.noConfusion h2
  simp only [hc2] at h2
  have h1 := Option.some.inj h1
  have h2 := Option.some.inj h2
  rw [← h1, ← h2]
  have e1 := add_class_id_leaf _ _ _ hb1
  have e2 := add_class_id_leaf _ _ _ hb2
  have ed1 := shapeForest_classDispatch _ _ _ _ _ hd1
  have ed2 := shapeForest_classDispatch _ _ _ _ _ hd2
  have ecf := hcf cf1 cf2 hc1 hc2
  simp [shapeForest_cons, shapeTree, shapeForest_append, e1, e2, ed1, ed2,
    shapeForest_commonProps, shapeForest_nil, ecf]

theorem shapeForest_traverse_body (svc1 svc2 : HalService) (obj : AudioObjectID)
    (opt : TraversalOptions) (cr1 cr2 : Option (List ReportTree)) (l1 l2 : List ReportTree)
    (hcp : svc1.classProp = svc2.classProp)
    (h1 : traverse_body svc1 obj opt cr1 = some l1)
    (h2 : traverse_body svc2 obj opt cr2 = some l2)
    (hcf : ∀ cf1 cf2, cr1 = some cf1 → cr2 = some cf2 → shapeForest cf1 = shapeForest cf2) :
    shapeForest l1 = shapeForest l2 := by
  unfold traverse_body at h1 h2
  rw [← hcp] at h2
  by_cases q1 : (!opt.includeControls &&
      isOkAnd (svc1.classProp obj Selector.kAudioObjectPropertyBaseClass)
        (fun id => controlBaseClasses.contains id)) = true
  · rw [if_pos q1] at h1 h2
    have h1 := Option.some.inj h1
    have h2 := Option.some.inj h2
    rw [← h1, ← h2]
  rw [if_neg q1] at h1 h2
  by_cases q2 : (!opt.includeBoxes &&
      isOkAnd (svc1.classProp obj Selector.kAudioObjectPropertyClass)
        (fun id => id == kAudioBoxClassID)) = true
  · rw [if_pos q2] at h1 h2
    have h1 := Option.some.inj h1
    have h2 := Option.some.inj h2
    rw [← h1, ← h2]
  rw [if_neg q2] at h1 h2
  by_cases q3 : (!opt.includeClocks &&
      isOkAnd (svc1.classProp obj Selector.kAudioObjectPropertyClass)
        (fun id => id == kAudioClockDeviceClassID)) = true
  · rw [if_pos q3] at h1 h2
    have h1 := Option.some.inj h1
    have h2 := Option.some.inj h2
    rw [← h1, ← h2]
  rw [if_neg q3] at h1 h2
  by_cases q4 : (!opt.includeStreams &&
      isOkAnd (svc1.classProp obj Selector.kAudioObjectPropertyClass)
        (fun id => id == kAudioStreamClassID)) = true
  · rw [if_pos q4] at h1 h2
    have h1 := Option.some.inj h1
    have h2 := Option.some.inj h2
    rw [← h1, ← h2]
  rw [if_neg q4] at h1 h2
  by_cases q5 : (!opt.includePlugins &&
      isOkAnd (svc1.classProp obj Selector.kAudioObjectPropertyClass)
        (fun id => id == kAudioPlugInClassID)) = true
  · rw [if_pos q5] at h1 h2
    have h1 := Option.some.inj h1
    have h2 := Option.some.inj h2
    rw [← h1, ← h2]
  rw [if_neg q5] at h1 h2
  by_cases q6 : (!opt.includeProcesses &&
      isOkAnd (svc1.classProp obj Selector.kAudioObjectPropertyClass)
        (fun id => id == kAudioProcessClassID)) = true
  · rw [if_pos q6] at h1 h2
    have h1 := Option.some.inj h1
    have h2 := Option.some.inj h2
    rw [← h1, ← h2]
  rw [if_neg q6] at h1 h2
  exact shapeForest_traverse_report svc1 svc2 obj opt cr1 cr2 l1 l2 hcp h1 h2 hcf

mutual

theorem shape_traverse_obj (svc1 svc2 : HalService) (hcp : svc1.classProp = svc2.classProp) :
    ∀ (g : ObjGraph) (opt : TraversalOptions) (l1 l2 : List ReportTree),
      traverse_obj svc1 g opt = some l1 → traverse_obj svc2 g opt = some l2 →
      shapeForest l1 = shapeForest l2
  | ObjGraph.node obj ownErr kids, opt, l1, l2, h1, h2 => by
    rw [traverse_obj_node] at h1 h2
    refine shapeForest_traverse_body svc1 svc2 obj opt _ _ l1 l2 hcp h1 h2 ?_
    intro cf1 cf2 hcf1 hcf2
    cases ownErr with
    | some e =>
      have hcf1 := Option.some.inj hcf1
      have hcf2 := Option.some.inj hcf2
      rw [← hcf1, ← hcf2]
    | none =>
      exact shape_traverse_forest svc1 svc2 hcp kids opt cf1 cf2 hcf1 hcf2

theorem shape_traverse_forest (svc1 svc2 : HalService) (hcp : svc1.classProp = svc2.classProp) :
    ∀ (gs : List ObjGraph) (opt : TraversalOptions) (l1 l2 : List ReportTree),
      traverse_forest svc1 gs opt = some l1 → traverse_forest svc2 gs opt = some l2 →
      shapeForest l1 = shapeForest l2
  | [], _, l1, l2, h1, h2 => by
    have h1 := Option.some.inj h1
    have h2 := Option.some.inj h2
    rw [← h1, ← h2]
  | g :: gs, opt, l1, l2, h1, h2 => by
    unfold traverse_forest at h1 h2
    rcases ho1 : traverse_obj svc1 g opt with _ | ts1
    · simp only [ho1] at h1
      exact Option.noConfusion h1
    simp only [ho1] at h1
    rcases hf1 : traverse_forest svc1 gs opt with _ | rest1
    · simp only [hf1] at h1
      exact Option.noConfusion h1
    simp only [hf1] at h1
    rcases ho2 : traverse_obj svc2 g opt with _ | ts2
    · simp only [ho2] at h2
      exact Option.noConfusion h2
    simp only [ho2] at h2
    rcases hf2 : traverse_forest svc2 gs opt with _ | rest2
    · simp only [hf2] at h2
      exact Option.noConfusion h2
    simp only [hf2] at h2
    have h1 := Option.some.inj h1
    have h2 := Option.some.inj h2
    rw [← h1, ← h2, shapeForest_append, shapeForest_append,
      shape_traverse_obj svc1 svc2 hcp g opt ts1 ts2 ho1 ho2,
      shape_traverse_forest svc1 svc2 hcp gs opt rest1 rest2 hf1 hf2]

end

/-- C4: a failing property fetch produces, in debug mode, a leaf carrying
the property label and the failing status code, and no leaf otherwise;
and the branch structure of the whole traversal (which objects are
reported and how the recursion nests) does not depend on the property
fetches at all: two services answering the class lookups identically
produce reports of identical shape whenever both complete. -/
theorem debug_error_reporting :
    (∀ (opt : TraversalOptions) (name : String) (e : OSStatus), opt.debug = true →
      propItems opt name (Except.error e) =
        [ReportTree.leaf (name ++ ": " ++ ("Err(" ++ toString e ++ ")"))]) ∧
    (∀ (opt : TraversalOptions) (name : String) (e : OSStatus), opt.debug = false →
      propItems opt name (Except.error e) = []) ∧
    (∀ (svc1 svc2 : HalService) (g : ObjGraph) (opt : TraversalOptions)
      (l1 l2 : List ReportTree),
      svc1.classProp = svc2.classProp →
      traverse_obj svc1 g opt = some l1 → traverse_obj svc2 g opt = some l2 →
      shapeForest l1 = shapeForest l2) := by
  refine ⟨?_, ?_, ?_⟩
  · intro opt name e h
    simp [propItems, h, reprResultStr]
  · intro opt name e h
    simp [propItems, h]
  · intro svc1 svc2 g opt l1 l2 hcp h1 h2
    exact shape_traverse_obj svc1 svc2 hcp g opt l1 l2 h1 h2

/-- Options with only the debug bit set. -/
def optDebugOnly : TraversalOptions :=
  { TraversalOptions.empty with debug := true }

/-- Service used by the debug_error_reporting witness whose Owner fetch
succeeds and every other fetch fails. -/
def svcC4a : HalService :=
  ⟨fun _ _ => Except.error 7,
   fun _ sel _ => if sel = Selector.kAudioObjectPropertyOwner then Except.ok "true"
     else Except.error 9,
   ⟨fun _ _ => (0, 0), fun _ _ _ => (0, fun _ => 0)⟩⟩

/-- Service used by the debug_error_reporting witness whose fetches all
fail, with the same class answers as svcC4a. -/
def svcC4b : HalService :=
  ⟨fun _ _ => Except.error 7,
   fun _ _ _ => Except.error 5,
   ⟨fun _ _ => (1, 0), fun _ _ _ => (1, fun _ => 0)⟩⟩

/-- Concrete instantiation of debug_error_reporting: the debug leaf and the
silent omission for a failing fetch, and equal shapes for two runs that
differ in every property read (one report carries an Owner leaf, the
other none). -/
theorem debug_error_reporting_witness :
    propItems optDebugOnly "Name" (Except.error 5) =
      [ReportTree.leaf ("Name" ++ ": " ++ ("Err(" ++ toString (5 : OSStatus) ++ ")"))] ∧
    propItems TraversalOptions.empty "Name" (Except.error 5) = [] ∧
    shapeForest [ReportTree.branch ("AudioObjectID: " ++ toString (3 : AudioObjectID))
        ((ReportTree.leaf ("BaseClass" ++ ": Err(" ++ toString (7 : OSStatus) ++ ")") ::
          ReportTree.leaf ("Class" ++ ": Err(" ++ toString (7 : OSStatus) ++ ")") ::
          commonProps svcC4a 3 TraversalOptions.empty) ++ [] ++ [])] =
      shapeForest [ReportTree.branch ("AudioObjectID: " ++ toString (3 : AudioObjectID))
        ((ReportTree.leaf ("BaseClass" ++ ": Err(" ++ toString (7 : OSStatus) ++ ")") ::
          ReportTree.leaf ("Class" ++ ": Err(" ++ toString (7 : OSStatus) ++ ")") ::
          commonProps svcC4b 3 TraversalOptions.empty) ++ [] ++ [])] := by
  refine ⟨?_, ?_, ?_⟩
  · exact debug_error_reporting.1 optDebugOnly "Name" 5 rfl
  · exact debug_error_reporting.2.1 TraversalOptions.empty "Name" 5 rfl
  · exact debug_error_reporting.2.2 svcC4a svcC4b (ObjGraph.node 3 none [])
      TraversalOptions.empty _ _ rfl rfl rfl
